import Mathlib
namespace Wildspark

/-- Oracle for the real-valued library functions the Go code calls
(`math.Sqrt`, `math.Cos`, `math.Sin`) and the constant `math.Pi`.
Embedding them as a parameter keeps every definition computable while
recording exactly which analytic facts each theorem depends on. -/
structure RealFns where
  sqrt : ℚ → ℚ
  cos : ℚ → ℚ
  sin : ℚ → ℚ
  pi : ℚ

/-- Physix-go `vector.Vector`: a 2D vector with float64 fields `X`, `Y`. -/
structure Vec where
  X : ℚ
  Y : ℚ
deriving DecidableEq, Repr

/-- Physix-go `Vector.Add`. -/
def Vec.Add (v w : Vec) : Vec := ⟨v.X + w.X, v.Y + w.Y⟩

/-- Physix-go `Vector.Sub`. -/
def Vec.Sub (v w : Vec) : Vec := ⟨v.X - w.X, v.Y - w.Y⟩

/-- Physix-go `Vector.Scale`. -/
def Vec.Scale (v : Vec) (s : ℚ) : Vec := ⟨v.X * s, v.Y * s⟩

/-- Physix-go `Vector.InnerProduct`. -/
def Vec.InnerProduct (v w : Vec) : ℚ := v.X * w.X + v.Y * w.Y

/-- Squared magnitude `X*X + Y*Y`, the argument the source passes to
`math.Sqrt` inside `Vector.Magnitude`. -/
def Vec.MagnitudeSq (v : Vec) : ℚ := v.X * v.X + v.Y * v.Y

/-- Physix-go `Vector.Magnitude`: `math.Sqrt(X*X + Y*Y)`. -/
def Vec.Magnitude (F : RealFns) (v : Vec) : ℚ := F.sqrt v.MagnitudeSq

/-- Physix-go `Vector.Normalize`: divides both components by the magnitude. -/
def Vec.Normalize (F : RealFns) (v : Vec) : Vec :=
  ⟨v.X / v.Magnitude F, v.Y / v.Magnitude F⟩

/-- Physix-go `rigidbody.RigidBody`, restricted to the fields this repository
reads or writes (`Position`, `Velocity`, `Mass`, `Shape`, `Width`, `Height`,
`Radius`, `IsMovable`). -/
structure RigidBody where
  Position : Vec
  Velocity : Vec
  Mass : ℚ
  Shape : String
  Width : ℚ
  Height : ℚ
  Radius : ℚ
  IsMovable : Bool
deriving DecidableEq, Repr

instance : Inhabited RigidBody :=
  ⟨⟨⟨0, 0⟩, ⟨0, 0⟩, 0, "", 0, 0, 0, false⟩⟩

/-- ASCII lower-casing of one character, the effect of `strings.ToLower` on
the shape tags appearing in this code base. -/
def lowerChar (c : Char) : Char :=
  if 'A' ≤ c ∧ c ≤ 'Z' then Char.ofNat (c.toNat + 32) else c

/-- Model of `strings.ToLower` restricted to ASCII strings (every shape tag in
the repository is ASCII). -/
def lowerString (s : String) : String := ⟨s.data.map lowerChar⟩

/-- WorldBounds from physics_engine.go. -/
structure WorldBounds where
  MinX : ℚ
  MinY : ℚ
  MaxX : ℚ
  MaxY : ℚ
deriving DecidableEq, Repr

/-- The polygon registry `map[*rigidbody.RigidBody][]vector.Vector`, embedded
as an association list from a body identity (standing for the pointer) to the
stored vertex list. -/
abbrev polygonRegistry := List (Nat × List Vec)

/-- PhysicsEngine from physics_engine.go. -/
structure PhysicsEngine where
  gravity : Vec
  worldBounds : WorldBounds
  deltaTime : ℚ
  polygonRegistry : polygonRegistry
deriving DecidableEq, Repr

/-- NewPhysicsEngine: zero gravity, bounds 0..1600 by 0..1200, dt = 1/60,
empty registry. -/
def NewPhysicsEngine : PhysicsEngine :=
  ⟨⟨0, 0⟩, ⟨0, 0, 1600, 1200⟩, 1 / 60, []⟩

/-- First-match lookup in an association list; the embedding of indexing a Go
map, returning `none` when the key is absent. -/
def lookupA {α β : Type} [BEq α] : List (α × β) → α → Option β
  | [], _ => none
  | p :: t, k => if p.1 == k then some p.2 else lookupA t k

/-- Embedding of Go map assignment `m[k] = v`: replace the entry of `k` if
present, otherwise append one. -/
def insertA {α β : Type} [BEq α] : List (α × β) → α → β → List (α × β)
  | [], k, v => [(k, v)]
  | p :: t, k, v => if p.1 == k then (k, v) :: t else p :: insertA t k v

/-- Embedding of Go `delete(m, k)`: drop every entry with key `k`. -/
def deleteA {α β : Type} [BEq α] : List (α × β) → α → List (α × β)
  | [], _ => []
  | p :: t, k => if p.1 == k then deleteA t k else p :: deleteA t k

/-- Lines 101-120 of physics_engine.go, `handleBoundaryCollision`: four
sequential axis clamps using half the `Width`/`Height` fields, reflecting the
corresponding velocity component scaled by the bounce factor 0.7. -/
def handleBoundaryCollision (pe : PhysicsEngine) (obj : RigidBody) : RigidBody :=
  let bounce : ℚ := 7 / 10
  let obj :=
    if obj.Position.X - obj.Width / 2 < pe.worldBounds.MinX then
      { obj with
          Position := ⟨pe.worldBounds.MinX + obj.Width / 2, obj.Position.Y⟩
          Velocity := ⟨-obj.Velocity.X * bounce, obj.Velocity.Y⟩ }
    else obj
  let obj :=
    if obj.Position.X + obj.Width / 2 > pe.worldBounds.MaxX then
      { obj with
          Position := ⟨pe.worldBounds.MaxX - obj.Width / 2, obj.Position.Y⟩
          Velocity := ⟨-obj.Velocity.X * bounce, obj.Velocity.Y⟩ }
    else obj
  let obj :=
    if obj.Position.Y - obj.Height / 2 < pe.worldBounds.MinY then
      { obj with
          Position := ⟨obj.Position.X, pe.worldBounds.MinY + obj.Height / 2⟩
          Velocity := ⟨obj.Velocity.X, -obj.Velocity.Y * bounce⟩ }
    else obj
  let obj :=
    if obj.Position.Y + obj.Height / 2 > pe.worldBounds.MaxY then
      { obj with
          Position := ⟨obj.Position.X, pe.worldBounds.MaxY - obj.Height / 2⟩
          Velocity := ⟨obj.Velocity.X, -obj.Velocity.Y * bounce⟩ }
    else obj
  obj

/-- Lines 122-129 of physics_engine.go, `applyDrag`: multiply the velocity by
0.95, then zero it if the resulting magnitude is below 0.5. -/
def applyDrag (F : RealFns) (obj : RigidBody) : RigidBody :=
  let drag : ℚ := 95 / 100
  let v : Vec := ⟨obj.Velocity.X * drag, obj.Velocity.Y * drag⟩
  if v.Magnitude F < 1 / 2 then { obj with Velocity := ⟨0, 0⟩ }
  else { obj with Velocity := v }

/-- Lines 205-224 of physics_engine.go: `abs`, `min`, `max` on float64. -/
def absQ (x : ℚ) : ℚ := if x < 0 then -x else x

/-- Go `min` helper from physics_engine.go. -/
def minQ (a b : ℚ) : ℚ := if a < b then a else b

/-- Go `max` helper from physics_engine.go. -/
def maxQ (a b : ℚ) : ℚ := if a > b then a else b

/-- Lines 162-197 of physics_engine.go, `aabbOverlap`: broad-phase check that
dispatches on the lower-cased shape tags (circle-circle distance,
circle-rectangle clamped point, rectangle-rectangle half extents). -/
def aabbOverlap (a b : RigidBody) : Bool :=
  let sa := lowerString a.Shape
  let sb := lowerString b.Shape
  if sa = "circle" ∧ sb = "circle" then
    let dx := b.Position.X - a.Position.X
    let dy := b.Position.Y - a.Position.Y
    let distanceSquared := dx * dx + dy * dy
    let radiusSumSquared := (a.Radius + b.Radius) * (a.Radius + b.Radius)
    distanceSquared ≤ radiusSumSquared
  else if sa = "circle" ∨ sb = "circle" then
    let circle := if sb = "circle" then b else a
    let rect := if sb = "circle" then a else b
    let closestX := maxQ (rect.Position.X - rect.Width / 2)
      (minQ circle.Position.X (rect.Position.X + rect.Width / 2))
    let closestY := maxQ (rect.Position.Y - rect.Height / 2)
      (minQ circle.Position.Y (rect.Position.Y + rect.Height / 2))
    let dx := closestX - circle.Position.X
    let dy := closestY - circle.Position.Y
    dx * dx + dy * dy ≤ circle.Radius * circle.Radius
  else
    let overlapX := (a.Width / 2 + b.Width / 2) - absQ (a.Position.X - b.Position.X)
    let overlapY := (a.Height / 2 + b.Height / 2) - absQ (a.Position.Y - b.Position.Y)
    overlapX ≥ 0 ∧ overlapY ≥ 0

/-- CollisionInfo from physics_engine.go. -/
structure CollisionInfo where
  collided : Bool
  mtv : Vec
  depth : ℚ
  contactPoint : Vec
deriving DecidableEq, Repr

/-- The zero-valued CollisionInfo the Go code denotes by
`CollisionInfo{collided: false}`. -/
def noCollision : CollisionInfo := ⟨false, ⟨0, 0⟩, 0, ⟨0, 0⟩⟩

/-- Lines 246-290 of physics_engine.go, `detectCircleCollision`: squared
distance rejection, then the coincident-centers branch (distance below
0.0001 pushes along the X axis by the radius of `a`), then the exact
overlap and direction. -/
def detectCircleCollision (F : RealFns) (a b : RigidBody) : CollisionInfo :=
  let dx := b.Position.X - a.Position.X
  let dy := b.Position.Y - a.Position.Y
  let distanceSquared := dx * dx + dy * dy
  let radiusSum := a.Radius + b.Radius
  if distanceSquared > radiusSum * radiusSum then noCollision
  else
    let distance := F.sqrt distanceSquared
    if distance < 1 / 10000 then
      ⟨true, ⟨a.Radius, 0⟩, radiusSum, a.Position⟩
    else
      let overlap := radiusSum - distance
      let direction : Vec := ⟨dx / distance, dy / distance⟩
      let contactPoint : Vec :=
        ⟨a.Position.X + direction.X * a.Radius, a.Position.Y + direction.Y * a.Radius⟩
      ⟨true, direction.Scale overlap, overlap, contactPoint⟩

/-- Lines 382-392 of physics_engine.go, `createRectanglePolygon`. -/
def createRectanglePolygon (position : Vec) (width height : ℚ) : List Vec :=
  let halfWidth := width / 2
  let halfHeight := height / 2
  [⟨position.X - halfWidth, position.Y - halfHeight⟩,
   ⟨position.X + halfWidth, position.Y - halfHeight⟩,
   ⟨position.X + halfWidth, position.Y + halfHeight⟩,
   ⟨position.X - halfWidth, position.Y + halfHeight⟩]

/-- Lines 395-411 of physics_engine.go, `createCirclePolygon`: a regular
polygon approximation through the cosine/sine oracle (vertex counts below 3
are bumped to 8). -/
def createCirclePolygon (F : RealFns) (position : Vec) (radius : ℚ)
    (numVertices : Nat) : List Vec :=
  let n := if numVertices < 3 then 8 else numVertices
  let angleStep := 2 * F.pi / (n : ℚ)
  (List.range n).map fun i =>
    let angle := (i : ℚ) * angleStep
    ⟨position.X + radius * F.cos angle, position.Y + radius * F.sin angle⟩

/-- Lines 366-379 of physics_engine.go, `getCustomPolygonVertices`: registry
lookup keyed by the body's identity. -/
def getCustomPolygonVertices (reg : polygonRegistry) (id : Nat) : Option (List Vec) :=
  lookupA reg id

/-- Lines 351-363 of physics_engine.go, `getPolygonVertices`: dispatch on the
lower-cased shape tag; polygons fall back to their bounding rectangle when
unregistered. -/
def getPolygonVertices (F : RealFns) (reg : polygonRegistry) (id : Nat)
    (rb : RigidBody) : List Vec :=
  if lowerString rb.Shape = "circle" then
    createCirclePolygon F rb.Position rb.Radius 16
  else if lowerString rb.Shape = "polygon" then
    match getCustomPolygonVertices reg id with
    | some customVertices => customVertices
    | none => createRectanglePolygon rb.Position rb.Width rb.Height
  else createRectanglePolygon rb.Position rb.Width rb.Height

/-- Lines 414-420 of physics_engine.go, `getEdges`. -/
def getEdges (vertices : List Vec) : List Vec :=
  (List.range vertices.length).map fun i =>
    (vertices.getD ((i + 1) % vertices.length) ⟨0, 0⟩).Sub (vertices.getD i ⟨0, 0⟩)

/-- Lines 423-429 of physics_engine.go, `getNormals`: perpendicular of each
edge, normalized. -/
def getNormals (F : RealFns) (edges : List Vec) : List Vec :=
  edges.map fun edge => Vec.Normalize F ⟨-edge.Y, edge.X⟩

/-- Lines 432-447 of physics_engine.go, `projectPolygon`: fold the dot
products to their minimum and maximum, starting from vertex 0. -/
def projectPolygon (vertices : List Vec) (axis : Vec) : ℚ × ℚ :=
  let first := axis.InnerProduct (vertices.getD 0 ⟨0, 0⟩)
  (vertices.drop 1).foldl
    (fun acc v =>
      let projection := axis.InnerProduct v
      (if projection < acc.1 then projection else acc.1,
       if projection > acc.2 then projection else acc.2))
    (first, first)

/-- Lines 450-463 of physics_engine.go, `checkOverlap`. -/
def checkOverlap (min1 max1 min2 max2 : ℚ) : Bool × ℚ :=
  if min1 > max2 ∨ min2 > max1 then (false, 0)
  else
    let overlap1 := max2 - min1
    let overlap2 := max1 - min2
    if overlap1 < overlap2 then (true, overlap1) else (true, overlap2)

/-- Exact value of `math.MaxFloat64`, the start value of the smallest-overlap
search in `detectPolygonCollision`. -/
def maxFloat64 : ℚ := (2 ^ 53 - 1) * 2 ^ 971

/-- The axis loop of `detectPolygonCollision` (lines 312-328): walk the axes,
return `none` as soon as projections are disjoint, otherwise keep the
smallest overlap and its axis. -/
def satLoop (verticesA verticesB : List Vec) :
    List Vec → ℚ × Vec → Option (ℚ × Vec)
  | [], acc => some acc
  | axis :: rest, acc =>
    let pa := projectPolygon verticesA axis
    let pb := projectPolygon verticesB axis
    let r := checkOverlap pa.1 pa.2 pb.1 pb.2
    if !r.1 then none
    else satLoop verticesA verticesB rest
      (if r.2 < acc.1 then (r.2, axis) else acc)

/-- Lines 293-349 of physics_engine.go, `detectPolygonCollision`: the
separating-axis test over the polygon representations of both bodies, with
the MTV flipped so it points from `a` to `b`. -/
def detectPolygonCollision (F : RealFns) (reg : polygonRegistry)
    (ia ib : Nat) (a b : RigidBody) : CollisionInfo :=
  let verticesA := getPolygonVertices F reg ia a
  let verticesB := getPolygonVertices F reg ib b
  let axes := getNormals F (getEdges verticesA) ++ getNormals F (getEdges verticesB)
  match satLoop verticesA verticesB axes (maxFloat64, ⟨0, 0⟩) with
  | none => noCollision
  | some (smallestOverlap, smallestAxis) =>
    let direction := b.Position.Sub a.Position
    let axis :=
      if direction.InnerProduct smallestAxis < 0 then smallestAxis.Scale (-1)
      else smallestAxis
    ⟨true, axis.Scale smallestOverlap, smallestOverlap,
     ⟨(a.Position.X + b.Position.X) / 2, (a.Position.Y + b.Position.Y) / 2⟩⟩

/-- Lines 235-243 of physics_engine.go, `detectCollision`: exact-tag
circle-circle fast path, otherwise the SAT path. -/
def detectCollision (F : RealFns) (reg : polygonRegistry) (ia ib : Nat)
    (a b : RigidBody) : CollisionInfo :=
  if a.Shape = "circle" ∧ b.Shape = "circle" then detectCircleCollision F a b
  else detectPolygonCollision F reg ia ib a b

/-- Lines 504-533 of physics_engine.go, `applyCollisionImpulse`.  Go float
division is embedded as rational division; the source divides by `a.Mass`
and `b.Mass` without any zero guard, and the predicate
`impulseComputesInverseMass` below captures exactly when those divisions
execute. -/
def applyCollisionImpulse (F : RealFns) (a b : RigidBody)
    (info : CollisionInfo) : RigidBody × RigidBody :=
  let restitution : ℚ := 7 / 10
  let normal := info.mtv.Normalize F
  let relVelocity := b.Velocity.Sub a.Velocity
  let velAlongNormal := relVelocity.InnerProduct normal
  if velAlongNormal > 0 then (a, b)
  else
    let impulseScalar := -(1 + restitution) * velAlongNormal / (1 / a.Mass + 1 / b.Mass)
    let impulse := normal.Scale impulseScalar
    ({ a with Velocity := a.Velocity.Sub (impulse.Scale (1 / a.Mass)) },
     { b with Velocity := b.Velocity.Add (impulse.Scale (1 / b.Mass)) })

/-- Control-flow condition under which `applyCollisionImpulse` executes the
statements `impulseScalar /= 1/a.Mass + 1/b.Mass`,
`a.Velocity.Sub(impulse.Scale(1/a.Mass))` and
`b.Velocity.Add(impulse.Scale(1/b.Mass))` for a pair handed over by
`resolvePolygonCollision`: the pair collided, both bodies are movable, and
the relative velocity along the normal is not separating. -/
def impulseComputesInverseMass (F : RealFns) (a b : RigidBody)
    (info : CollisionInfo) : Bool :=
  info.collided && a.IsMovable && b.IsMovable &&
    !((b.Velocity.Sub a.Velocity).InnerProduct (info.mtv.Normalize F) > 0)

/-- Lines 466-501 of physics_engine.go, `resolvePolygonCollision`: split the
MTV between two movable bodies and apply the impulse, or push the single
movable body by the full MTV and zero its velocity. -/
def resolvePolygonCollision (F : RealFns) (a b : RigidBody)
    (info : CollisionInfo) : RigidBody × RigidBody :=
  if !info.collided then (a, b)
  else if a.IsMovable && b.IsMovable then
    let a' := { a with Position := a.Position.Sub (info.mtv.Scale (1 / 2)) }
    let b' := { b with Position := b.Position.Add (info.mtv.Scale (1 / 2)) }
    applyCollisionImpulse F a' b' info
  else if a.IsMovable && !b.IsMovable then
    ({ a with Position := a.Position.Sub info.mtv, Velocity := ⟨0, 0⟩ }, b)
  else if !a.IsMovable && b.IsMovable then
    (a, { b with Position := b.Position.Add info.mtv, Velocity := ⟨0, 0⟩ })
  else (a, b)

/-- Lines 540-548 of physics_engine.go, `AddPolygonToPhysicsEngine`: store
the vertices for the body (any list is accepted, including lists shorter
than 3). -/
def AddPolygonToPhysicsEngine (reg : polygonRegistry) (id : Nat)
    (vertices : List Vec) : polygonRegistry :=
  insertA reg id vertices

/-- Lines 567-595 of physics_engine.go, `UpdatePolygonVertices`: return
unchanged when the body has no registry entry or fewer than 3 stored
vertices; otherwise translate every stored vertex by the displacement from
the stored centroid to the body's current position. -/
def UpdatePolygonVertices (reg : polygonRegistry) (id : Nat)
    (position : Vec) : polygonRegistry :=
  match lookupA reg id with
  | none => reg
  | some storedVertices =>
    if storedVertices.length < 3 then reg
    else
      let n : ℚ := (storedVertices.length : ℚ)
      let centroid : Vec :=
        ⟨(storedVertices.foldl (fun s v => s + v.X) 0) / n,
         (storedVertices.foldl (fun s v => s + v.Y) 0) / n⟩
      let displacement := position.Sub centroid
      insertA reg id (storedVertices.map fun v => v.Add displacement)

/-- Lines 692-728 of physics_engine.go, `MakePolygonRigidBodyFromPoints`:
`nil` for an empty point list, otherwise an immovable polygon body centered
at the middle of the bounding box of the points, returned together with the
raw points. -/
def MakePolygonRigidBodyFromPoints (points : List Vec) :
    Option (RigidBody × List Vec) :=
  match points with
  | [] => none
  | p0 :: rest =>
    let minX := rest.foldl (fun m p => minQ m p.X) p0.X
    let maxX := rest.foldl (fun m p => maxQ m p.X) p0.X
    let minY := rest.foldl (fun m p => minQ m p.Y) p0.Y
    let maxY := rest.foldl (fun m p => maxQ m p.Y) p0.Y
    let width := maxX - minX
    let height := maxY - minY
    some ({ Position := ⟨minX + width / 2, minY + height / 2⟩
            Velocity := ⟨0, 0⟩
            Mass := 0
            Shape := "polygon"
            Width := width
            Height := height
            Radius := 0
            IsMovable := false }, points)

/-- Lines 89-90 of physics_engine.go inside `updateRigidBody`: Euler
integration of the position by the engine's fixed time slice. -/
def integrateBody (pe : PhysicsEngine) (obj : RigidBody) : RigidBody :=
  { obj with
      Position := ⟨obj.Position.X + obj.Velocity.X * pe.deltaTime,
                   obj.Position.Y + obj.Velocity.Y * pe.deltaTime⟩ }

/-- Lines 85-99 of physics_engine.go, `updateRigidBody`: integrate, clamp
against the world bounds, apply drag, and resynchronize the polygon registry
when a polygon body moved.  The body identity `id` stands for the rigid-body
pointer used as the registry key. -/
def updateRigidBody (F : RealFns) (pe : PhysicsEngine) (id : Nat)
    (obj : RigidBody) : RigidBody × polygonRegistry :=
  let oldPosition := obj.Position
  let obj := integrateBody pe obj
  let obj := handleBoundaryCollision pe obj
  let obj := applyDrag F obj
  if obj.Shape = "polygon" ∧ obj.Position ≠ oldPosition then
    (obj, UpdatePolygonVertices pe.polygonRegistry id obj.Position)
  else (obj, pe.polygonRegistry)

/-- Body of the pairwise loop of `handleCollisions` (lines 132-159 of
physics_engine.go) for the pair of indices `ij`, operating on the current
body list: skip static-static pairs, then the broad phase, then the narrow
phase, then resolution.  The boolean records whether the pair survived the
static-static skip, hence whether any broad- or narrow-phase test ran on it;
it is ghost instrumentation used by the temporal claim and does not alter
the body updates. -/
def stepPair (F : RealFns) (reg : polygonRegistry) (l : List RigidBody)
    (ij : Nat × Nat) : List RigidBody × Bool :=
  let a := l.getD ij.1 default
  let b := l.getD ij.2 default
  if !a.IsMovable && !b.IsMovable then (l, false)
  else if !aabbOverlap a b then (l, true)
  else
    let info := detectCollision F reg ij.1 ij.2 a b
    if !info.collided then (l, true)
    else
      let r := resolvePolygonCollision F a b info
      ((l.set ij.1 r.1).set ij.2 r.2, true)

/-- The double loop of `handleCollisions`, threaded over an explicit list of
index pairs; the second component accumulates the pairs on which a broad- or
narrow-phase test ran. -/
def collisionLoop (F : RealFns) (reg : polygonRegistry) :
    List (Nat × Nat) → List RigidBody × List (Nat × Nat) →
    List RigidBody × List (Nat × Nat)
  | [], acc => acc
  | ij :: rest, acc =>
    let r := stepPair F reg acc.1 ij
    collisionLoop F reg rest (r.1, acc.2 ++ if r.2 then [ij] else [])

/-- The index pairs `(i, j)` with `i < j < n` in the iteration order of the
nested loops of `handleCollisions`. -/
def pairIndices (n : Nat) : List (Nat × Nat) :=
  ((List.range n).map fun i =>
    ((List.range n).filter fun j => i < j).map fun j => (i, j)).flatten

/-- Lines 131-160 of physics_engine.go, `handleCollisions`: run the loop body
over every pair of distinct indices, mutating the body list in place. -/
def handleCollisions (F : RealFns) (reg : polygonRegistry)
    (objects : List RigidBody) : List RigidBody × List (Nat × Nat) :=
  collisionLoop F reg (pairIndices objects.length) (objects, [])

/-- The fields of `GameMatchState` (game.go) that the ownership index claims
mention: the canonical body collection, both ownership maps, the player map,
and the engine's polygon registry.  Rigid-body pointers are embedded as
natural-number identities. -/
structure GameMatchState where
  gameObjects : List Nat
  gameObjectsByOwner : List (Int × List Nat)
  rbOwner : List (Nat × Int)
  playerObjects : List (String × Nat)
  polygonRegistry : polygonRegistry
deriving DecidableEq, Repr

/-- Lines 487-498 of game.go, `AddOwnerCollider`: append the body to the
canonical collection, record it in both ownership maps, and register the
polygon vertices when a non-empty list is supplied. -/
def AddOwnerCollider (gs : GameMatchState) (owner : Int) (rb : Nat)
    (polygonPoints : List Vec) : GameMatchState :=
  { gs with
      gameObjects := gs.gameObjects ++ [rb]
      gameObjectsByOwner := insertA gs.gameObjectsByOwner owner
        ((lookupA gs.gameObjectsByOwner owner).getD [] ++ [rb])
      rbOwner := insertA gs.rbOwner rb owner
      polygonRegistry :=
        if 0 < polygonPoints.length then
          AddPolygonToPhysicsEngine gs.polygonRegistry rb polygonPoints
        else gs.polygonRegistry }

/-- Lines 501-523 of game.go, `RemoveOwnerColliders`: collect the owner's
colliders, delete each from the polygon registry and the reverse map, filter
the canonical collection, and drop the owner's entry. -/
def RemoveOwnerColliders (gs : GameMatchState) (owner : Int) : GameMatchState :=
  let toRemove := (lookupA gs.gameObjectsByOwner owner).getD []
  { gs with
      gameObjects := gs.gameObjects.filter fun g => !(toRemove.contains g)
      polygonRegistry := toRemove.foldl (fun r rb => deleteA r rb) gs.polygonRegistry
      rbOwner := toRemove.foldl (fun r rb => deleteA r rb) gs.rbOwner
      gameObjectsByOwner := deleteA gs.gameObjectsByOwner owner }

/-- Lines 550-592 of game.go, `RemovePlayerObject`: a no-op when the player
has no entry; otherwise remove the first occurrence of the body from the
canonical collection, drop the player entry and the registry entry, and when
the body is owner-tracked scrub it from the owner index as well. -/
def RemovePlayerObject (gs : GameMatchState) (playerID : String) : GameMatchState :=
  match lookupA gs.playerObjects playerID with
  | none => gs
  | some rb =>
    let gameObjects := gs.gameObjects.erase rb
    let playerObjects := deleteA gs.playerObjects playerID
    let reg := deleteA gs.polygonRegistry rb
    match lookupA gs.rbOwner rb with
    | none =>
      { gs with
          gameObjects := gameObjects
          playerObjects := playerObjects
          polygonRegistry := reg }
    | some owner =>
      let list := (lookupA gs.gameObjectsByOwner owner).getD []
      let newList := list.filter fun r => !(r == rb)
      { gameObjects := gameObjects
        playerObjects := playerObjects
        polygonRegistry := reg
        rbOwner := deleteA gs.rbOwner rb
        gameObjectsByOwner :=
          if newList.length = 0 then deleteA gs.gameObjectsByOwner owner
          else insertA gs.gameObjectsByOwner owner newList }

/-- Concrete instantiation of the analytic oracle used by witnesses: a table
holding the square roots the concrete scenarios need (all of them exact
squares, so any faithful model of `math.Sqrt` agrees on these inputs). -/
def tableFns : RealFns :=
  { sqrt := fun q => if q = 225 then 15 else if q = 25 then 5 else 0
    cos := fun _ => 0
    sin := fun _ => 0
    pi := 0 }

section AssocLemmas

variable {α β : Type} [BEq α] [LawfulBEq α]

/-- Bidirectional consistency of the ownership index, the invariant stated in
the data-model section of the spec: every body listed under an owner has the
matching reverse entry. -/
abbrev OwnerIndexInv (gs : GameMatchState) : Prop :=
  ∀ p ∈ gs.gameObjectsByOwner, ∀ rb ∈ p.2, lookupA gs.rbOwner rb = some p.1

theorem lookupA_deleteA_self (l : List (α × β)) (k : α) :
    lookupA (deleteA l k) k = none := by
  induction l with
  | nil => rfl
  | cons p t ih =>
    by_cases hp : p.1 = k
    · simpa [deleteA, hp] using ih
    · simpa [deleteA, lookupA, hp] using ih

theorem lookupA_deleteA_ne (l : List (α × β)) (k k' : α) (h : k' ≠ k) :
    lookupA (deleteA l k) k' = lookupA l k' := by
  induction l with
  | nil => rfl
  | cons p t ih =>
    cases hb : (p.1 == k) with
    | true =>
      have hp : p.1 = k := eq_of_beq hb
      have h2 : (p.1 == k') = false := by
        apply beq_eq_false_iff_ne.mpr
        rw [hp]
        exact fun e => h e.symm
      simp [deleteA, lookupA, hb, h2, ih]
    | false =>
      cases hk : (p.1 == k') with
      | true => simp [deleteA, lookupA, hb, hk]
      | false => simp [deleteA, lookupA, hb, hk, ih]

theorem lookupA_deleteA_none (l : List (α × β)) (k k2 : α)
    (h : lookupA l k = none) : lookupA (deleteA l k2) k = none := by
  induction l with
  | nil => rfl
  | cons p t ih =>
    by_cases hp : p.1 = k
    · simp [lookupA, hp] at h
    · simp [lookupA, hp] at h
      by_cases h2 : p.1 = k2
      · simpa [deleteA, h2] using ih h
      · simpa [deleteA, lookupA, h2, hp] using ih h

theorem lookupA_foldl_deleteA_none (keys : List α) (r : List (α × β)) (k : α)
    (h : lookupA r k = none) :
    lookupA (keys.foldl (fun acc key => deleteA acc key) r) k = none := by
  induction keys generalizing r with
  | nil => simpa using h
  | cons key rest ih =>
    simpa using ih (deleteA r key) (lookupA_deleteA_none r k key h)

theorem lookupA_foldl_deleteA_mem (keys : List α) (r : List (α × β)) (k : α)
    (h : k ∈ keys) :
    lookupA (keys.foldl (fun acc key => deleteA acc key) r) k = none := by
  induction keys generalizing r with
  | nil => cases h
  | cons key rest ih =>
    rcases List.mem_cons.mp h with h1 | h2
    · subst h1
      exact lookupA_foldl_deleteA_none rest (deleteA r k) k
        (lookupA_deleteA_self r k)
    · simpa using ih (deleteA r key) h2

theorem deleteA_of_lookupA_none (l : List (α × β)) (k : α)
    (h : lookupA l k = none) : deleteA l k = l := by
  induction l with
  | nil => rfl
  | cons p t ih =>
    by_cases hp : p.1 = k
    · simp [lookupA, hp] at h
    · simp [lookupA, hp] at h
      simp [deleteA, hp, ih h]

theorem lookupA_insertA_self (l : List (α × β)) (k : α) (v : β) :
    lookupA (insertA l k v) k = some v := by
  induction l with
  | nil => simp [insertA, lookupA]
  | cons p t ih =>
    by_cases hp : p.1 = k
    · simp [insertA, lookupA, hp]
    · simpa [insertA, lookupA, hp] using ih

end AssocLemmas

theorem lookupA_mem {α β : Type} [BEq α] [LawfulBEq α]
    (l : List (α × β)) (k : α) (v : β) (h : lookupA l k = some v) :
    (k, v) ∈ l := by
  induction l with
  | nil => simp [lookupA] at h
  | cons p t ih =>
    obtain ⟨pa, pb⟩ := p
    by_cases hp : pa = k
    · subst hp
      simp [lookupA] at h
      subst h
      exact List.mem_cons_self _ _
    · simp [lookupA, hp] at h
      exact List.mem_cons_of_mem _ (ih h)

/-- Claim C1: for every owner id, after `RemoveOwnerColliders(ownerId)`
completes, no rigid body that was previously recorded under that owner
remains in the canonical `gameObjects` collection, in the polygon registry,
in the owner-to-colliders map, or in the collider-to-owner map.  The
invariant hypothesis is the bidirectional-consistency property the spec
states for the ownership index. -/
theorem removeOwnerColliders_removes_everywhere (gs : GameMatchState)
    (owner : Int) (rb : Nat) (hinv : OwnerIndexInv gs)
    (hmem : rb ∈ (lookupA gs.gameObjectsByOwner owner).getD []) :
    rb ∉ (RemoveOwnerColliders gs owner).gameObjects ∧
    lookupA (RemoveOwnerColliders gs owner).polygonRegistry rb = none ∧
    lookupA (RemoveOwnerColliders gs owner).rbOwner rb = none ∧
    ∀ o v, lookupA (RemoveOwnerColliders gs owner).gameObjectsByOwner o = some v →
      rb ∉ v := by
  refine ⟨?_, ?_, ?_, ?_⟩
  · intro hcontra
    simp only [RemoveOwnerColliders, List.mem_filter] at hcontra
    have := hcontra.2
    simp at this
    exact this hmem
  · exact lookupA_foldl_deleteA_mem _ _ _ hmem
  · exact lookupA_foldl_deleteA_mem _ _ _ hmem
  · intro o v hlook hrbv
    simp only [RemoveOwnerColliders] at hlook
    by_cases ho : o = owner
    · rw [ho, lookupA_deleteA_self] at hlook
      exact Option.noConfusion hlook
    · rw [lookupA_deleteA_ne _ _ _ ho] at hlook
      have h1 : lookupA gs.rbOwner rb = some o :=
        hinv (o, v) (lookupA_mem _ _ _ hlook) rb hrbv
      obtain ⟨w, hw⟩ : ∃ w, lookupA gs.gameObjectsByOwner owner = some w := by
        cases hl : lookupA gs.gameObjectsByOwner owner with
        | none => rw [hl] at hmem; simp at hmem
        | some w => exact ⟨w, rfl⟩
      have h2 : lookupA gs.rbOwner rb = some owner := by
        apply hinv (owner, w) (lookupA_mem _ _ _ hw) rb
        rw [hw] at hmem
        simpa using hmem
      rw [h1] at h2
      exact ho (Option.some.inj h2)

theorem removeOwnerColliders_removes_everywhere_witness :
    OwnerIndexInv ⟨[1, 2, 3], [(5, [1, 2])], [(1, 5), (2, 5)], [],
      [(1, [⟨0, 0⟩, ⟨1, 0⟩, ⟨0, 1⟩])]⟩ ∧
    1 ∈ (lookupA (⟨[1, 2, 3], [(5, [1, 2])], [(1, 5), (2, 5)], [],
      [(1, [⟨0, 0⟩, ⟨1, 0⟩, ⟨0, 1⟩])]⟩ : GameMatchState).gameObjectsByOwner 5).getD [] ∧
    (1 ∉ (RemoveOwnerColliders ⟨[1, 2, 3], [(5, [1, 2])], [(1, 5), (2, 5)], [],
        [(1, [⟨0, 0⟩, ⟨1, 0⟩, ⟨0, 1⟩])]⟩ 5).gameObjects ∧
      lookupA (RemoveOwnerColliders ⟨[1, 2, 3], [(5, [1, 2])], [(1, 5), (2, 5)], [],
        [(1, [⟨0, 0⟩, ⟨1, 0⟩, ⟨0, 1⟩])]⟩ 5).polygonRegistry 1 = none ∧
      lookupA (RemoveOwnerColliders ⟨[1, 2, 3], [(5, [1, 2])], [(1, 5), (2, 5)], [],
        [(1, [⟨0, 0⟩, ⟨1, 0⟩, ⟨0, 1⟩])]⟩ 5).rbOwner 1 = none ∧
      ∀ o v, lookupA (RemoveOwnerColliders ⟨[1, 2, 3], [(5, [1, 2])], [(1, 5), (2, 5)], [],
        [(1, [⟨0, 0⟩, ⟨1, 0⟩, ⟨0, 1⟩])]⟩ 5).gameObjectsByOwner o = some v → 1 ∉ v) :=
  ⟨by decide, by decide,
   removeOwnerColliders_removes_everywhere _ 5 1 (by decide) (by decide)⟩

/-- Claim C9: removal operations on absent owner ids and absent player ids
are no-ops that leave the whole state unchanged. -/
theorem removal_on_absent_key_is_noop (gs : GameMatchState) (owner : Int)
    (playerID : String)
    (howner : lookupA gs.gameObjectsByOwner owner = none)
    (hplayer : lookupA gs.playerObjects playerID = none) :
    RemoveOwnerColliders gs owner = gs ∧ RemovePlayerObject gs playerID = gs := by
  constructor
  · cases gs with
    | mk gameObjects gameObjectsByOwner rbOwner playerObjects reg =>
      simp only [RemoveOwnerColliders] at *
      simp [howner, deleteA_of_lookupA_none _ _ howner, List.filter_true]
  · simp [RemovePlayerObject, hplayer]

theorem removal_on_absent_key_is_noop_witness :
    (lookupA (⟨[1], [(2, [1])], [(1, 2)], [("p", 1)], []⟩ :
        GameMatchState).gameObjectsByOwner 5 = none ∧
      lookupA (⟨[1], [(2, [1])], [(1, 2)], [("p", 1)], []⟩ :
        GameMatchState).playerObjects "q" = none) ∧
    (RemoveOwnerColliders ⟨[1], [(2, [1])], [(1, 2)], [("p", 1)], []⟩ 5 =
        ⟨[1], [(2, [1])], [(1, 2)], [("p", 1)], []⟩ ∧
      RemovePlayerObject ⟨[1], [(2, [1])], [(1, 2)], [("p", 1)], []⟩ "q" =
        ⟨[1], [(2, [1])], [(1, 2)], [("p", 1)], []⟩) :=
  ⟨⟨by decide, by decide⟩,
   removal_on_absent_key_is_noop _ 5 "q" (by decide) (by decide)⟩

/-- Claim C10: a registry entry with fewer than 3 vertices is never resynced
(the stored vertices stay untouched), while registration itself accepts any
non-empty vertex list. -/
theorem updatePolygonVertices_short_entry_unchanged (reg : polygonRegistry)
    (id : Nat) (vs : List Vec) (position : Vec)
    (h : lookupA reg id = some vs) (hlen : vs.length < 3) :
    UpdatePolygonVertices reg id position = reg ∧
    ∀ (reg2 : polygonRegistry) (id2 : Nat) (pts : List Vec), pts ≠ [] →
      lookupA (AddPolygonToPhysicsEngine reg2 id2 pts) id2 = some pts := by
  constructor
  · simp [UpdatePolygonVertices, h, hlen]
  · intro reg2 id2 pts _
    exact lookupA_insertA_self reg2 id2 pts

theorem updatePolygonVertices_short_entry_unchanged_witness :
    (lookupA (AddPolygonToPhysicsEngine [] 0 [⟨0, 0⟩, ⟨2, 0⟩]) 0 =
        some [⟨0, 0⟩, ⟨2, 0⟩] ∧ ([⟨0, 0⟩, ⟨2, 0⟩] : List Vec).length < 3) ∧
    (UpdatePolygonVertices (AddPolygonToPhysicsEngine [] 0 [⟨0, 0⟩, ⟨2, 0⟩]) 0 ⟨7, 7⟩ =
        AddPolygonToPhysicsEngine [] 0 [⟨0, 0⟩, ⟨2, 0⟩] ∧
      ∀ (reg2 : polygonRegistry) (id2 : Nat) (pts : List Vec), pts ≠ [] →
        lookupA (AddPolygonToPhysicsEngine reg2 id2 pts) id2 = some pts) :=
  ⟨⟨by decide, by decide⟩,
   updatePolygonVertices_short_entry_unchanged _ 0 [⟨0, 0⟩, ⟨2, 0⟩] ⟨7, 7⟩
     (by decide) (by decide)⟩

/-- Claim C5 counterexample: register the triangle (0,0), (3,0), (0,3) the
way `MakePolygonRigidBodyFromPoints` prescribes (body position is the center
of the bounding box, here (1.5, 1.5)), move the body by d = (1,0) and
resync: the stored vertices are translated by (1.5, 0.5), not by d. -/
theorem resync_does_not_translate_by_d :
    (MakePolygonRigidBodyFromPoints ([⟨0, 0⟩, ⟨3, 0⟩, ⟨0, 3⟩] : List Vec)).map
        (fun r => r.1.Position) = some ⟨3 / 2, 3 / 2⟩ ∧
    lookupA (UpdatePolygonVertices
        (AddPolygonToPhysicsEngine [] 0 ([⟨0, 0⟩, ⟨3, 0⟩, ⟨0, 3⟩] : List Vec)) 0
        (Vec.Add ⟨3 / 2, 3 / 2⟩ ⟨1, 0⟩)) 0 ≠
      some (([⟨0, 0⟩, ⟨3, 0⟩, ⟨0, 3⟩] : List Vec).map fun v => v.Add ⟨1, 0⟩) := by
  constructor
  · norm_num [MakePolygonRigidBodyFromPoints, minQ, maxQ]
  · norm_num [UpdatePolygonVertices, AddPolygonToPhysicsEngine, insertA,
      lookupA, Vec.Add, Vec.Sub]

/-- Claim C5 as amended: when the centroid of the stored vertices coincides
with the body position before the move (which holds from the first resync
onward), moving the body by `d` and resyncing translates every stored vertex
by exactly `d`. -/
theorem resync_translates_by_d_from_centroid (reg : polygonRegistry)
    (id : Nat) (vs : List Vec) (p0 d : Vec)
    (h : lookupA reg id = some vs) (hlen : ¬ vs.length < 3)
    (hcent : (⟨(vs.foldl (fun s v => s + v.X) 0) / (vs.length : ℚ),
              (vs.foldl (fun s v => s + v.Y) 0) / (vs.length : ℚ)⟩ : Vec) = p0) :
    UpdatePolygonVertices reg id (p0.Add d) =
      insertA reg id (vs.map fun v => v.Add d) := by
  simp only [UpdatePolygonVertices, h, hlen, if_false]
  rw [hcent]
  have hdisp : (p0.Add d).Sub p0 = d := by
    cases p0; cases d
    simp [Vec.Add, Vec.Sub]
  rw [hdisp]

theorem resync_translates_by_d_from_centroid_witness :
    (lookupA ([(0, [⟨0, 0⟩, ⟨3, 0⟩, ⟨0, 3⟩])] : polygonRegistry) 0 =
        some [⟨0, 0⟩, ⟨3, 0⟩, ⟨0, 3⟩] ∧
      ¬ ([⟨0, 0⟩, ⟨3, 0⟩, ⟨0, 3⟩] : List Vec).length < 3 ∧
      (⟨(([⟨0, 0⟩, ⟨3, 0⟩, ⟨0, 3⟩] : List Vec).foldl (fun s v => s + v.X) 0) /
          (([⟨0, 0⟩, ⟨3, 0⟩, ⟨0, 3⟩] : List Vec).length : ℚ),
        (([⟨0, 0⟩, ⟨3, 0⟩, ⟨0, 3⟩] : List Vec).foldl (fun s v => s + v.Y) 0) /
          (([⟨0, 0⟩, ⟨3, 0⟩, ⟨0, 3⟩] : List Vec).length : ℚ)⟩ : Vec) = ⟨1, 1⟩) ∧
    UpdatePolygonVertices ([(0, [⟨0, 0⟩, ⟨3, 0⟩, ⟨0, 3⟩])] : polygonRegistry) 0
        (Vec.Add ⟨1, 1⟩ ⟨1, 0⟩) =
      insertA ([(0, [⟨0, 0⟩, ⟨3, 0⟩, ⟨0, 3⟩])] : polygonRegistry) 0
        (([⟨0, 0⟩, ⟨3, 0⟩, ⟨0, 3⟩] : List Vec).map fun v => v.Add ⟨1, 0⟩) :=
  ⟨⟨by decide, by decide, by norm_num⟩,
   resync_translates_by_d_from_centroid _ 0 _ ⟨1, 1⟩ ⟨1, 0⟩ (by decide) (by decide)
     (by norm_num)⟩

/-- Claim C4 counterexample: a movable circle with `Radius = 10` but
`Width = 0` is clamped against the min-X wall; the code snaps to
`MinX + Width/2 = 0`, not to `MinX + Radius = 10`, because
`handleBoundaryCollision` consults only the `Width`/`Height` fields. -/
theorem boundary_snap_ignores_circle_radius :
    (⟨⟨-6, 600⟩, ⟨-60, 0⟩, 1, "circle", 0, 0, 10, true⟩ : RigidBody).Position.X -
        (⟨⟨-6, 600⟩, ⟨-60, 0⟩, 1, "circle", 0, 0, 10, true⟩ : RigidBody).Width / 2 <
        NewPhysicsEngine.worldBounds.MinX ∧
    (handleBoundaryCollision NewPhysicsEngine
        ⟨⟨-6, 600⟩, ⟨-60, 0⟩, 1, "circle", 0, 0, 10, true⟩).Velocity.X =
      -(-60 : ℚ) * (7 / 10) ∧
    (handleBoundaryCollision NewPhysicsEngine
        ⟨⟨-6, 600⟩, ⟨-60, 0⟩, 1, "circle", 0, 0, 10, true⟩).Position.X ≠
      NewPhysicsEngine.worldBounds.MinX +
        (⟨⟨-6, 600⟩, ⟨-60, 0⟩, 1, "circle", 0, 0, 10, true⟩ : RigidBody).Radius := by
  refine ⟨by norm_num [NewPhysicsEngine], ?_, ?_⟩ <;>
    norm_num [handleBoundaryCollision, NewPhysicsEngine]

/-- Claim C4 as amended: a movable body clamped against any of the four
world boundaries is snapped to that boundary plus half of the body's
`Width`/`Height` field for every shape (for circles the `Radius` field is
not consulted), and the corresponding velocity component is reflected
scaled by the bounce factor 0.7.  Each wall is stated under the code's own
entry condition for that wall, excluding only the degenerate cascade where
the opposite wall of the same axis fires on the snapped position (a body
wider or taller than the world). -/
theorem handleBoundary_snap_and_bounce (pe : PhysicsEngine) (obj : RigidBody) :
    (obj.Position.X - obj.Width / 2 < pe.worldBounds.MinX →
      ¬(pe.worldBounds.MinX + obj.Width / 2 + obj.Width / 2 > pe.worldBounds.MaxX) →
      (handleBoundaryCollision pe obj).Position.X =
        pe.worldBounds.MinX + obj.Width / 2 ∧
      (handleBoundaryCollision pe obj).Velocity.X = -obj.Velocity.X * (7 / 10)) ∧
    (¬(obj.Position.X - obj.Width / 2 < pe.worldBounds.MinX) →
      obj.Position.X + obj.Width / 2 > pe.worldBounds.MaxX →
      (handleBoundaryCollision pe obj).Position.X =
        pe.worldBounds.MaxX - obj.Width / 2 ∧
      (handleBoundaryCollision pe obj).Velocity.X = -obj.Velocity.X * (7 / 10)) ∧
    (obj.Position.Y - obj.Height / 2 < pe.worldBounds.MinY →
      ¬(pe.worldBounds.MinY + obj.Height / 2 + obj.Height / 2 > pe.worldBounds.MaxY) →
      (handleBoundaryCollision pe obj).Position.Y =
        pe.worldBounds.MinY + obj.Height / 2 ∧
      (handleBoundaryCollision pe obj).Velocity.Y = -obj.Velocity.Y * (7 / 10)) ∧
    (¬(obj.Position.Y - obj.Height / 2 < pe.worldBounds.MinY) →
      obj.Position.Y + obj.Height / 2 > pe.worldBounds.MaxY →
      (handleBoundaryCollision pe obj).Position.Y =
        pe.worldBounds.MaxY - obj.Height / 2 ∧
      (handleBoundaryCollision pe obj).Velocity.Y = -obj.Velocity.Y * (7 / 10)) := by
  refine ⟨fun h1 h2 => ?_, fun h1 h2 => ?_, fun h3 h4 => ?_, fun h3 h4 => ?_⟩ <;>
    simp only [handleBoundaryCollision] <;> split_ifs <;> simp_all

theorem handleBoundary_snap_and_bounce_witness :
    (((⟨⟨-6, 600⟩, ⟨-60, 0⟩, 1, "circle", 0, 0, 10, true⟩ : RigidBody).Position.X -
        (⟨⟨-6, 600⟩, ⟨-60, 0⟩, 1, "circle", 0, 0, 10, true⟩ : RigidBody).Width / 2 <
        NewPhysicsEngine.worldBounds.MinX ∧
      ¬(NewPhysicsEngine.worldBounds.MinX +
          (⟨⟨-6, 600⟩, ⟨-60, 0⟩, 1, "circle", 0, 0, 10, true⟩ : RigidBody).Width / 2 +
          (⟨⟨-6, 600⟩, ⟨-60, 0⟩, 1, "circle", 0, 0, 10, true⟩ : RigidBody).Width / 2 >
          NewPhysicsEngine.worldBounds.MaxX)) ∧
      ((handleBoundaryCollision NewPhysicsEngine
          ⟨⟨-6, 600⟩, ⟨-60, 0⟩, 1, "circle", 0, 0, 10, true⟩).Position.X =
        NewPhysicsEngine.worldBounds.MinX +
          (⟨⟨-6, 600⟩, ⟨-60, 0⟩, 1, "circle", 0, 0, 10, true⟩ : RigidBody).Width / 2 ∧
      (handleBoundaryCollision NewPhysicsEngine
          ⟨⟨-6, 600⟩, ⟨-60, 0⟩, 1, "circle", 0, 0, 10, true⟩).Velocity.X =
        -(⟨⟨-6, 600⟩, ⟨-60, 0⟩, 1, "circle", 0, 0, 10, true⟩ :
            RigidBody).Velocity.X * (7 / 10))) ∧
    ((¬((⟨⟨800, 1195⟩, ⟨0, 50⟩, 10, "rectangle", 40, 40, 0, true⟩ :
          RigidBody).Position.Y -
        (⟨⟨800, 1195⟩, ⟨0, 50⟩, 10, "rectangle", 40, 40, 0, true⟩ :
          RigidBody).Height / 2 < NewPhysicsEngine.worldBounds.MinY) ∧
      (⟨⟨800, 1195⟩, ⟨0, 50⟩, 10, "rectangle", 40, 40, 0, true⟩ :
          RigidBody).Position.Y +
        (⟨⟨800, 1195⟩, ⟨0, 50⟩, 10, "rectangle", 40, 40, 0, true⟩ :
          RigidBody).Height / 2 > NewPhysicsEngine.worldBounds.MaxY) ∧
      ((handleBoundaryCollision NewPhysicsEngine
          ⟨⟨800, 1195⟩, ⟨0, 50⟩, 10, "rectangle", 40, 40, 0, true⟩).Position.Y =
        NewPhysicsEngine.worldBounds.MaxY -
          (⟨⟨800, 1195⟩, ⟨0, 50⟩, 10, "rectangle", 40, 40, 0, true⟩ :
            RigidBody).Height / 2 ∧
      (handleBoundaryCollision NewPhysicsEngine
          ⟨⟨800, 1195⟩, ⟨0, 50⟩, 10, "rectangle", 40, 40, 0, true⟩).Velocity.Y =
        -(⟨⟨800, 1195⟩, ⟨0, 50⟩, 10, "rectangle", 40, 40, 0, true⟩ :
            RigidBody).Velocity.Y * (7 / 10))) :=
  ⟨⟨⟨by norm_num [NewPhysicsEngine], by norm_num [NewPhysicsEngine]⟩,
    (handleBoundary_snap_and_bounce NewPhysicsEngine
        ⟨⟨-6, 600⟩, ⟨-60, 0⟩, 1, "circle", 0, 0, 10, true⟩).1
      (by norm_num [NewPhysicsEngine]) (by norm_num [NewPhysicsEngine])⟩,
   ⟨⟨by norm_num [NewPhysicsEngine], by norm_num [NewPhysicsEngine]⟩,
    (handleBoundary_snap_and_bounce NewPhysicsEngine
        ⟨⟨800, 1195⟩, ⟨0, 50⟩, 10, "rectangle", 40, 40, 0, true⟩).2.2.2
      (by norm_num [NewPhysicsEngine]) (by norm_num [NewPhysicsEngine])⟩⟩

/-- Claim C7 counterexample: for two circles at the same center the
degenerate branch of `detectCircleCollision` returns the push vector
`(Radius_of_first_argument, 0)` for both argument orders, so the MTV of
`(b, a)` is not the negation of the MTV of `(a, b)` (any faithful square
root model gives sqrt 0 = 0, which is what the table oracle returns). -/
theorem circle_mtv_not_negated_at_coincident_centers :
    (detectCollision tableFns [] 0 1
        ⟨⟨0, 0⟩, ⟨0, 0⟩, 1, "circle", 0, 0, 1, true⟩
        ⟨⟨0, 0⟩, ⟨0, 0⟩, 1, "circle", 0, 0, 1, true⟩).collided = true ∧
    (detectCollision tableFns [] 1 0
        ⟨⟨0, 0⟩, ⟨0, 0⟩, 1, "circle", 0, 0, 1, true⟩
        ⟨⟨0, 0⟩, ⟨0, 0⟩, 1, "circle", 0, 0, 1, true⟩).mtv ≠
      (detectCollision tableFns [] 0 1
        ⟨⟨0, 0⟩, ⟨0, 0⟩, 1, "circle", 0, 0, 1, true⟩
        ⟨⟨0, 0⟩, ⟨0, 0⟩, 1, "circle", 0, 0, 1, true⟩).mtv.Scale (-1) := by
  constructor
  · norm_num [detectCollision, detectCircleCollision, tableFns]
  · norm_num [detectCollision, detectCircleCollision, tableFns, Vec.Scale]

/-- Claim C7 as amended: circle-circle detection reports the same collided
flag for both argument orders, and whenever the computed center distance is
not in the coincident-centers branch (below 0.0001) the MTV of the swapped
call is the negation of the original MTV. -/
theorem detectCollision_circle_symmetric (F : RealFns) (reg : polygonRegistry)
    (ia ib : Nat) (a b : RigidBody)
    (ha : a.Shape = "circle") (hb : b.Shape = "circle") :
    (detectCollision F reg ia ib a b).collided =
      (detectCollision F reg ib ia b a).collided ∧
    (¬ F.sqrt ((b.Position.X - a.Position.X) * (b.Position.X - a.Position.X) +
          (b.Position.Y - a.Position.Y) * (b.Position.Y - a.Position.Y)) < 1 / 10000 →
      (detectCollision F reg ib ia b a).mtv =
        (detectCollision F reg ia ib a b).mtv.Scale (-1)) := by
  have hswap : detectCollision F reg ia ib a b = detectCircleCollision F a b := by
    simp [detectCollision, ha, hb]
  have hswap2 : detectCollision F reg ib ia b a = detectCircleCollision F b a := by
    simp [detectCollision, ha, hb]
  rw [hswap, hswap2]
  simp only [detectCircleCollision]
  have hd : (a.Position.X - b.Position.X) * (a.Position.X - b.Position.X) +
      (a.Position.Y - b.Position.Y) * (a.Position.Y - b.Position.Y) =
      (b.Position.X - a.Position.X) * (b.Position.X - a.Position.X) +
      (b.Position.Y - a.Position.Y) * (b.Position.Y - a.Position.Y) := by ring
  have hr : b.Radius + a.Radius = a.Radius + b.Radius := by ring
  rw [hd, hr]
  set d2 := (b.Position.X - a.Position.X) * (b.Position.X - a.Position.X) +
      (b.Position.Y - a.Position.Y) * (b.Position.Y - a.Position.Y) with hd2
  set rsum := a.Radius + b.Radius with hrsum
  by_cases hcol : d2 > rsum * rsum
  · rw [if_pos hcol, if_pos hcol]
    exact ⟨rfl, fun _ => by simp [noCollision, Vec.Scale]⟩
  · rw [if_neg hcol, if_neg hcol]
    by_cases hdeg : F.sqrt d2 < 1 / 10000
    · rw [if_pos hdeg, if_pos hdeg]
      exact ⟨rfl, fun hcontra => absurd hdeg hcontra⟩
    · rw [if_neg hdeg, if_neg hdeg]
      refine ⟨rfl, fun _ => ?_⟩
      simp only [Vec.Scale, Vec.mk.injEq]
      exact ⟨by ring, by ring⟩

theorem detectCollision_circle_symmetric_witness :
    ((⟨⟨0, 0⟩, ⟨5, 0⟩, 1, "circle", 0, 0, 10, true⟩ : RigidBody).Shape = "circle" ∧
      (⟨⟨15, 0⟩, ⟨-5, 0⟩, 1, "circle", 0, 0, 10, true⟩ : RigidBody).Shape = "circle") ∧
    ((detectCollision tableFns [] 0 1
        ⟨⟨0, 0⟩, ⟨5, 0⟩, 1, "circle", 0, 0, 10, true⟩
        ⟨⟨15, 0⟩, ⟨-5, 0⟩, 1, "circle", 0, 0, 10, true⟩).collided =
      (detectCollision tableFns [] 1 0
        ⟨⟨15, 0⟩, ⟨-5, 0⟩, 1, "circle", 0, 0, 10, true⟩
        ⟨⟨0, 0⟩, ⟨5, 0⟩, 1, "circle", 0, 0, 10, true⟩).collided ∧
    (¬ tableFns.sqrt
        (((⟨⟨15, 0⟩, ⟨-5, 0⟩, 1, "circle", 0, 0, 10, true⟩ : RigidBody).Position.X -
            (⟨⟨0, 0⟩, ⟨5, 0⟩, 1, "circle", 0, 0, 10, true⟩ : RigidBody).Position.X) *
          ((⟨⟨15, 0⟩, ⟨-5, 0⟩, 1, "circle", 0, 0, 10, true⟩ : RigidBody).Position.X -
            (⟨⟨0, 0⟩, ⟨5, 0⟩, 1, "circle", 0, 0, 10, true⟩ : RigidBody).Position.X) +
          ((⟨⟨15, 0⟩, ⟨-5, 0⟩, 1, "circle", 0, 0, 10, true⟩ : RigidBody).Position.Y -
            (⟨⟨0, 0⟩, ⟨5, 0⟩, 1, "circle", 0, 0, 10, true⟩ : RigidBody).Position.Y) *
          ((⟨⟨15, 0⟩, ⟨-5, 0⟩, 1, "circle", 0, 0, 10, true⟩ : RigidBody).Position.Y -
            (⟨⟨0, 0⟩, ⟨5, 0⟩, 1, "circle", 0, 0, 10, true⟩ : RigidBody).Position.Y)) <
        1 / 10000 →
      (detectCollision tableFns [] 1 0
        ⟨⟨15, 0⟩, ⟨-5, 0⟩, 1, "circle", 0, 0, 10, true⟩
        ⟨⟨0, 0⟩, ⟨5, 0⟩, 1, "circle", 0, 0, 10, true⟩).mtv =
      (detectCollision tableFns [] 0 1
        ⟨⟨0, 0⟩, ⟨5, 0⟩, 1, "circle", 0, 0, 10, true⟩
        ⟨⟨15, 0⟩, ⟨-5, 0⟩, 1, "circle", 0, 0, 10, true⟩).mtv.Scale (-1))) :=
  ⟨⟨rfl, rfl⟩,
   detectCollision_circle_symmetric tableFns [] 0 1
     ⟨⟨0, 0⟩, ⟨5, 0⟩, 1, "circle", 0, 0, 10, true⟩
     ⟨⟨15, 0⟩, ⟨-5, 0⟩, 1, "circle", 0, 0, 10, true⟩ rfl rfl⟩

/-- Claim C6: for a movable body whose boundary clamp is a no-op this step
(and which is outside any collision pass), the velocity magnitude never
increases across `updateRigidBody`; once the post-drag magnitude test of the
code fires (below 0.5) the velocity is exactly zero, and a zero velocity
stays zero on such steps. -/
theorem drag_monotone_and_snap_to_zero (F : RealFns) (pe : PhysicsEngine)
    (id : Nat) (obj : RigidBody) (_hmov : obj.IsMovable = true)
    (hnb : handleBoundaryCollision pe (integrateBody pe obj) = integrateBody pe obj) :
    Real.sqrt (((updateRigidBody F pe id obj).1.Velocity.MagnitudeSq : ℚ) : ℝ) ≤
      Real.sqrt ((obj.Velocity.MagnitudeSq : ℚ) : ℝ) ∧
    (F.sqrt (Vec.MagnitudeSq
        ⟨obj.Velocity.X * (95 / 100), obj.Velocity.Y * (95 / 100)⟩) < 1 / 2 →
      (updateRigidBody F pe id obj).1.Velocity = ⟨0, 0⟩) ∧
    (obj.Velocity = ⟨0, 0⟩ → (updateRigidBody F pe id obj).1.Velocity = ⟨0, 0⟩) := by
  have h1 : (updateRigidBody F pe id obj).1 =
      applyDrag F (handleBoundaryCollision pe (integrateBody pe obj)) := by
    simp only [updateRigidBody]
    split <;> rfl
  rw [hnb] at h1
  have hvel : (integrateBody pe obj).Velocity = obj.Velocity := rfl
  refine ⟨?_, ?_, ?_⟩
  · rw [h1]
    simp only [applyDrag, hvel, Vec.Magnitude]
    split
    · simp only [Vec.MagnitudeSq]
      rw [show ((0 : ℚ) * 0 + 0 * 0 : ℚ) = 0 by ring]
      simp
    · apply Real.sqrt_le_sqrt
      have hq : Vec.MagnitudeSq
          ⟨obj.Velocity.X * (95 / 100), obj.Velocity.Y * (95 / 100)⟩ ≤
          obj.Velocity.MagnitudeSq := by
        simp only [Vec.MagnitudeSq]
        nlinarith [sq_nonneg obj.Velocity.X, sq_nonneg obj.Velocity.Y]
      exact_mod_cast hq
  · intro hsnap
    rw [h1]
    simp only [applyDrag, hvel, Vec.Magnitude]
    rw [if_pos hsnap]
  · intro hv0
    rw [h1]
    simp only [applyDrag, hvel, hv0, Vec.Magnitude, Vec.MagnitudeSq]
    split <;> simp

theorem drag_monotone_and_snap_to_zero_witness :
    ((⟨⟨100, 100⟩, ⟨30, 0⟩, 10, "rectangle", 40, 40, 0, true⟩ :
        RigidBody).IsMovable = true ∧
      handleBoundaryCollision NewPhysicsEngine (integrateBody NewPhysicsEngine
        ⟨⟨100, 100⟩, ⟨30, 0⟩, 10, "rectangle", 40, 40, 0, true⟩) =
      integrateBody NewPhysicsEngine
        ⟨⟨100, 100⟩, ⟨30, 0⟩, 10, "rectangle", 40, 40, 0, true⟩) ∧
    (Real.sqrt (((updateRigidBody tableFns NewPhysicsEngine 0
        ⟨⟨100, 100⟩, ⟨30, 0⟩, 10, "rectangle", 40, 40, 0, true⟩).1.Velocity.MagnitudeSq : ℚ) : ℝ) ≤
      Real.sqrt (((⟨⟨100, 100⟩, ⟨30, 0⟩, 10, "rectangle", 40, 40, 0, true⟩ :
        RigidBody).Velocity.MagnitudeSq : ℚ) : ℝ) ∧
    (tableFns.sqrt (Vec.MagnitudeSq
        ⟨(⟨⟨100, 100⟩, ⟨30, 0⟩, 10, "rectangle", 40, 40, 0, true⟩ :
            RigidBody).Velocity.X * (95 / 100),
          (⟨⟨100, 100⟩, ⟨30, 0⟩, 10, "rectangle", 40, 40, 0, true⟩ :
            RigidBody).Velocity.Y * (95 / 100)⟩) < 1 / 2 →
      (updateRigidBody tableFns NewPhysicsEngine 0
        ⟨⟨100, 100⟩, ⟨30, 0⟩, 10, "rectangle", 40, 40, 0, true⟩).1.Velocity = ⟨0, 0⟩) ∧
    ((⟨⟨100, 100⟩, ⟨30, 0⟩, 10, "rectangle", 40, 40, 0, true⟩ :
        RigidBody).Velocity = ⟨0, 0⟩ →
      (updateRigidBody tableFns NewPhysicsEngine 0
        ⟨⟨100, 100⟩, ⟨30, 0⟩, 10, "rectangle", 40, 40, 0, true⟩).1.Velocity = ⟨0, 0⟩)) :=
  ⟨⟨rfl, by norm_num [handleBoundaryCollision, integrateBody, NewPhysicsEngine]⟩,
   drag_monotone_and_snap_to_zero tableFns NewPhysicsEngine 0
     ⟨⟨100, 100⟩, ⟨30, 0⟩, 10, "rectangle", 40, 40, 0, true⟩ rfl
     (by norm_num [handleBoundaryCollision, integrateBody, NewPhysicsEngine])⟩

/-- Claim C3: the impulse path is reached with a zero mass.  The pair below
(a movable zero-mass circle against a movable unit-mass circle, approaching
head on) satisfies the reach condition of the divisions by `a.Mass` and
`b.Mass` inside `applyCollisionImpulse`, with `a.Mass = 0`: the source
divides by a zero mass on a reachable path instead of special-casing it. -/
theorem impulse_path_divides_by_zero_mass :
    (⟨⟨0, 0⟩, ⟨5, 0⟩, 0, "circle", 0, 0, 10, true⟩ : RigidBody).Mass = 0 ∧
    impulseComputesInverseMass tableFns
      ⟨⟨0, 0⟩, ⟨5, 0⟩, 0, "circle", 0, 0, 10, true⟩
      ⟨⟨15, 0⟩, ⟨-5, 0⟩, 1, "circle", 0, 0, 10, true⟩
      (detectCollision tableFns [] 0 1
        ⟨⟨0, 0⟩, ⟨5, 0⟩, 0, "circle", 0, 0, 10, true⟩
        ⟨⟨15, 0⟩, ⟨-5, 0⟩, 1, "circle", 0, 0, 10, true⟩) = true := by
  refine ⟨rfl, ?_⟩
  norm_num [impulseComputesInverseMass, detectCollision, detectCircleCollision,
    tableFns, Vec.Normalize, Vec.Magnitude, Vec.MagnitudeSq, Vec.Sub,
    Vec.InnerProduct, Vec.Scale]

/-- Claim C2: the concrete head-on scenario of the spec.  For any faithful
square-root oracle (fixed only at the two exact squares the scenario hits),
one collision pass over the two movable radius-10 circles at (0,0) and
(15,0) with velocities (5,0) and (-5,0) reports a collision of depth 5 and
resolves the velocities to (-3.5, 0) and (3.5, 0). -/
theorem head_on_circle_scenario (F : RealFns)
    (hs1 : F.sqrt 225 = 15) (hs2 : F.sqrt 25 = 5) :
    (detectCollision F [] 0 1
        ⟨⟨0, 0⟩, ⟨5, 0⟩, 1, "circle", 0, 0, 10, true⟩
        ⟨⟨15, 0⟩, ⟨-5, 0⟩, 1, "circle", 0, 0, 10, true⟩).collided = true ∧
    (detectCollision F [] 0 1
        ⟨⟨0, 0⟩, ⟨5, 0⟩, 1, "circle", 0, 0, 10, true⟩
        ⟨⟨15, 0⟩, ⟨-5, 0⟩, 1, "circle", 0, 0, 10, true⟩).depth = 5 ∧
    (handleCollisions F []
        [⟨⟨0, 0⟩, ⟨5, 0⟩, 1, "circle", 0, 0, 10, true⟩,
         ⟨⟨15, 0⟩, ⟨-5, 0⟩, 1, "circle", 0, 0, 10, true⟩]).1.map
      (fun o => o.Velocity) = [⟨-7 / 2, 0⟩, ⟨7 / 2, 0⟩] := by
  have hlc : lowerString "circle" = "circle" := by decide
  have hpair : pairIndices 2 = [(0, 1)] := by decide
  refine ⟨?_, ?_, ?_⟩
  · norm_num [detectCollision, detectCircleCollision, hs1]
  · norm_num [detectCollision, detectCircleCollision, hs1]
  · norm_num [handleCollisions, hpair, collisionLoop, stepPair, aabbOverlap,
      hlc, detectCollision, detectCircleCollision, resolvePolygonCollision,
      applyCollisionImpulse, Vec.Normalize, Vec.Magnitude, Vec.MagnitudeSq,
      Vec.Sub, Vec.Add, Vec.InnerProduct, Vec.Scale, hs1, hs2, List.getD]

theorem head_on_circle_scenario_witness :
    (tableFns.sqrt 225 = 15 ∧ tableFns.sqrt 25 = 5) ∧
    ((detectCollision tableFns [] 0 1
        ⟨⟨0, 0⟩, ⟨5, 0⟩, 1, "circle", 0, 0, 10, true⟩
        ⟨⟨15, 0⟩, ⟨-5, 0⟩, 1, "circle", 0, 0, 10, true⟩).collided = true ∧
    (detectCollision tableFns [] 0 1
        ⟨⟨0, 0⟩, ⟨5, 0⟩, 1, "circle", 0, 0, 10, true⟩
        ⟨⟨15, 0⟩, ⟨-5, 0⟩, 1, "circle", 0, 0, 10, true⟩).depth = 5 ∧
    (handleCollisions tableFns []
        [⟨⟨0, 0⟩, ⟨5, 0⟩, 1, "circle", 0, 0, 10, true⟩,
         ⟨⟨15, 0⟩, ⟨-5, 0⟩, 1, "circle", 0, 0, 10, true⟩]).1.map
      (fun o => o.Velocity) = [⟨-7 / 2, 0⟩, ⟨7 / 2, 0⟩]) :=
  ⟨⟨by norm_num [tableFns], by norm_num [tableFns]⟩,
   head_on_circle_scenario tableFns (by norm_num [tableFns]) (by norm_num [tableFns])⟩

theorem resolvePolygonCollision_isMovable (F : RealFns) (a b : RigidBody)
    (info : CollisionInfo) :
    (resolvePolygonCollision F a b info).1.IsMovable = a.IsMovable ∧
    (resolvePolygonCollision F a b info).2.IsMovable = b.IsMovable := by
  unfold resolvePolygonCollision applyCollisionImpulse
  split_ifs
  · simp
  · dsimp only
    split <;> simp
  · simp
  · simp
  · simp

theorem getD_set_isMovable (l : List RigidBody) (i k : Nat) (x : RigidBody)
    (hx : x.IsMovable = (l.getD i default).IsMovable) :
    ((l.set i x).getD k default).IsMovable = (l.getD k default).IsMovable := by
  rw [List.getD_eq_getElem?_getD, List.getD_eq_getElem?_getD, List.getElem?_set]
  by_cases hik : i = k
  · subst hik
    by_cases hb : i < l.length
    · rw [List.getD_eq_getElem?_getD, List.getElem?_eq_getElem hb] at hx
      simp [hb, hx, List.getElem?_eq_getElem hb]
    · have hnone : l[i]? = none := List.getElem?_eq_none (by omega)
      simp [hb, hnone]
  · simp [hik]

theorem stepPair_isMovable (F : RealFns) (reg : polygonRegistry)
    (l : List RigidBody) (ij : Nat × Nat) (k : Nat) :
    ((stepPair F reg l ij).1.getD k default).IsMovable =
      (l.getD k default).IsMovable := by
  simp only [stepPair]
  split_ifs with h1 h2 h3
  · rfl
  · rfl
  · rfl
  · have hres := resolvePolygonCollision_isMovable F (l.getD ij.1 default)
      (l.getD ij.2 default) (detectCollision F reg ij.1 ij.2 (l.getD ij.1 default)
        (l.getD ij.2 default))
    have hA : ∀ m, ((l.set ij.1 (resolvePolygonCollision F (l.getD ij.1 default)
        (l.getD ij.2 default) (detectCollision F reg ij.1 ij.2 (l.getD ij.1 default)
          (l.getD ij.2 default))).1).getD m default).IsMovable =
        (l.getD m default).IsMovable :=
      fun m => getD_set_isMovable l ij.1 m _ hres.1
    have h2x : (resolvePolygonCollision F (l.getD ij.1 default) (l.getD ij.2 default)
        (detectCollision F reg ij.1 ij.2 (l.getD ij.1 default)
          (l.getD ij.2 default))).2.IsMovable =
        ((l.set ij.1 (resolvePolygonCollision F (l.getD ij.1 default)
          (l.getD ij.2 default) (detectCollision F reg ij.1 ij.2 (l.getD ij.1 default)
            (l.getD ij.2 default))).1).getD ij.2 default).IsMovable := by
      rw [hA]
      exact hres.2
    exact (getD_set_isMovable _ ij.2 k _ h2x).trans (hA k)

theorem stepPair_snd_movable (F : RealFns) (reg : polygonRegistry)
    (l : List RigidBody) (ij : Nat × Nat)
    (h : (stepPair F reg l ij).2 = true) :
    ((l.getD ij.1 default).IsMovable || (l.getD ij.2 default).IsMovable) = true := by
  cases ha : (l.getD ij.1 default).IsMovable with
  | true => simp [ha]
  | false =>
    cases hb : (l.getD ij.2 default).IsMovable with
    | true => simp [hb]
    | false =>
      exfalso
      simp only [stepPair, ha, hb] at h
      simp at h

theorem collisionLoop_trace_movable (F : RealFns) (reg : polygonRegistry)
    (ps : List (Nat × Nat)) (l0 l : List RigidBody) (tr : List (Nat × Nat))
    (hmov : ∀ k, (l.getD k default).IsMovable = (l0.getD k default).IsMovable)
    (htr : ∀ ij ∈ tr,
      ((l0.getD ij.1 default).IsMovable || (l0.getD ij.2 default).IsMovable) = true) :
    ∀ ij ∈ (collisionLoop F reg ps (l, tr)).2,
      ((l0.getD ij.1 default).IsMovable || (l0.getD ij.2 default).IsMovable) = true := by
  induction ps generalizing l tr with
  | nil => exact htr
  | cons ij rest ih =>
    intro ij' h'
    simp only [collisionLoop] at h'
    refine ih (stepPair F reg l ij).1 _ ?_ ?_ ij' h'
    · intro k
      rw [stepPair_isMovable]
      exact hmov k
    · intro ij2 h2
      rcases List.mem_append.mp h2 with hin | hin
      · exact htr ij2 hin
      · cases htest : (stepPair F reg l ij).2 with
        | false => rw [htest] at hin; simp at hin
        | true =>
          rw [htest] at hin
          simp at hin
          rw [hin]
          have h3 := stepPair_snd_movable F reg l ij htest
          rw [hmov ij.1, hmov ij.2] at h3
          exact h3

/-- Claim C8: during a collision pass, a pair whose two bodies are both
immovable never reaches the broad-phase or narrow-phase tests: every pair
recorded as tested by `handleCollisions` has at least one movable member. -/
theorem static_static_pairs_never_tested (F : RealFns) (reg : polygonRegistry)
    (objects : List RigidBody) (ij : Nat × Nat)
    (h : ij ∈ (handleCollisions F reg objects).2) :
    ((objects.getD ij.1 default).IsMovable ||
      (objects.getD ij.2 default).IsMovable) = true := by
  refine collisionLoop_trace_movable F reg _ objects objects [] (fun k => rfl)
    ?_ ij h
  intro ij2 h2
  simp at h2

theorem static_static_pairs_never_tested_witness :
    (0, 1) ∈ (handleCollisions tableFns []
      [⟨⟨0, 0⟩, ⟨0, 0⟩, 10, "rectangle", 40, 40, 0, true⟩,
       ⟨⟨1000, 0⟩, ⟨0, 0⟩, 0, "rectangle", 40, 40, 0, false⟩]).2 ∧
    ((([⟨⟨0, 0⟩, ⟨0, 0⟩, 10, "rectangle", 40, 40, 0, true⟩,
        ⟨⟨1000, 0⟩, ⟨0, 0⟩, 0, "rectangle", 40, 40, 0, false⟩] :
        List RigidBody).getD 0 default).IsMovable ||
      (([⟨⟨0, 0⟩, ⟨0, 0⟩, 10, "rectangle", 40, 40, 0, true⟩,
        ⟨⟨1000, 0⟩, ⟨0, 0⟩, 0, "rectangle", 40, 40, 0, false⟩] :
        List RigidBody).getD 1 default).IsMovable) = true :=
  ⟨by
    have hpair : pairIndices 2 = [(0, 1)] := by decide
    have hlc : lowerString "rectangle" = "rectangle" := by decide
    have hne : ("rectangle" : String) ≠ "circle" := by decide
    norm_num [handleCollisions, hpair, collisionLoop, stepPair, aabbOverlap,
      hlc, hne, absQ, List.getD],
   static_static_pairs_never_tested tableFns [] _ (0, 1) (by
    have hpair : pairIndices 2 = [(0, 1)] := by decide
    have hlc : lowerString "rectangle" = "rectangle" := by decide
    have hne : ("rectangle" : String) ≠ "circle" := by decide
    norm_num [handleCollisions, hpair, collisionLoop, stepPair, aabbOverlap,
      hlc, hne, absQ, List.getD])⟩

end Wildspark
